import Mathlib

/-!
Shallow embedding of the exam-lifecycle, participation and scoring subsystem of
the sahabat-guru backend (modules/exams/exams.service.ts, exams.repository.ts,
modules/scoring/scoring.service.ts in its AES-scorer variant, libs/db/schema.ts).

Database rows are Lean structures, tables are lists, and the repository layer is
pure state passing over a `DB` record.  Timestamps are `Nat` (only presence or
absence matters to the service logic), ids are `Nat` drawn from a fresh-id
counter, floating-point scores are modelled as `ℚ`, and fallible service methods
return `Except Err`.  External collaborators (the AES essay scorer, the
proctoring session service) are oracle parameters whose calls may fail.
-/

namespace SahabatGuru

/-- Domain error taxonomy of `middlewares/error.middleware.ts`
(`NotFoundError`, `BadRequestError`, `ForbiddenError`). -/
inductive Err where
  | notFound (resource : String)
  | badRequest (message : String)
  | forbidden (message : String)
deriving Repr, DecidableEq

/-- The values of the persisted `exam_status` pg enum in `libs/db/schema.ts`:
`pgEnum("exam_status", ["DRAFT", "ONGOING", "FINISHED"])`. -/
def examStatusEnumValues : List String := ["DRAFT", "ONGOING", "FINISHED"]

/-- `exams` table row (`libs/db/schema.ts`).  Fields not consulted by the
embedded service methods (duration, shuffle settings, ...) are elided;
`settings.enableProctoring` is lifted to a plain flag.  `status` is a `String`
because the service layer writes values outside the persisted enum. -/
structure Exam where
  id : Nat
  teacherId : Nat
  title : String := ""
  status : String := "DRAFT"
  startTime : Option Nat := none
  endTime : Option Nat := none
  enableProctoring : Bool := false
deriving Repr, DecidableEq

/-- `questions` table row.  `qType` is the `type` column ("PG" | "ESSAY");
`question` is the prompt text, `rubric` the essay scoring weights. -/
structure Question where
  id : Nat
  qType : String
  question : String := ""
  answerKey : Option String := none
  rubric : Option (List (String × ℚ)) := none
deriving Repr, DecidableEq

/-- `exam_questions` link row (exam, question, order, points). -/
structure ExamQuestion where
  examId : Nat
  questionId : Nat
  order : Nat := 0
  points : ℚ := 0
deriving Repr, DecidableEq

/-- `exam_participants` table row. -/
structure ExamParticipant where
  id : Nat
  examId : Nat
  studentId : Nat
  startTime : Option Nat := none
  submitTime : Option Nat := none
  score : Option ℚ := none
  status : String := "JOINED"
  proctoringSessionId : Option Nat := none
deriving Repr, DecidableEq

/-- Structured answer feedback.  The service serialises this as a JSON string
(`JSON.stringify({overall, strengths, improvements, ...})`); the embedding keeps
the structure (rubric-breakdown / point-total members are elided — no claim
consults them). -/
structure Feedback where
  overall : String
  strengths : List String := []
  improvements : List String := []
deriving Repr, DecidableEq

/-- `answers` table row. -/
structure Answer where
  id : Nat
  participantId : Nat
  questionId : Nat
  answerText : Option String := none
  answerFileUrl : Option String := none
  aiScore : Option ℚ := none
  finalScore : Option ℚ := none
  feedback : Option Feedback := none
  status : String := "PENDING"
deriving Repr, DecidableEq

/-- `exam_statistics` table row.  Score columns are nullable doubles with no
default; the four counters default to `0` in the schema. -/
structure ExamStatistic where
  examId : Nat
  avgScore : Option ℚ := none
  maxScore : Option ℚ := none
  minScore : Option ℚ := none
  totalParticipants : Nat := 0
  submittedCount : Nat := 0
  scoredCount : Nat := 0
  suspiciousCount : Nat := 0
deriving Repr, DecidableEq

/-- A `Partial<ExamStatistic>` argument to `upsertStatistics`: `some` fields are
provided, `none` fields are absent (drizzle skips absent fields on update and
falls back to the column default on insert). -/
structure StatPatch where
  avgScore : Option ℚ := none
  maxScore : Option ℚ := none
  minScore : Option ℚ := none
  totalParticipants : Option Nat := none
  submittedCount : Option Nat := none
  scoredCount : Option Nat := none
  suspiciousCount : Option Nat := none
deriving Repr, DecidableEq

/-- The relational store.  `nextId` models uuid generation as a fresh-id
counter. -/
structure DB where
  exams : List Exam := []
  questions : List Question := []
  examQuestions : List ExamQuestion := []
  participants : List ExamParticipant := []
  answers : List Answer := []
  statistics : List ExamStatistic := []
  nextId : Nat := 1
deriving Repr, DecidableEq

/-! ## Repository layer (`exams.repository.ts`) -/

/-- `findExamById`. -/
def findExamById (db : DB) (id : Nat) : Option Exam :=
  db.exams.find? fun e => e.id == id

/-- `findExamByIdAndTeacher`: exam visible only to its owner. -/
def findExamByIdAndTeacher (db : DB) (id teacherId : Nat) : Option Exam :=
  db.exams.find? fun e => e.id == id && e.teacherId == teacherId

/-- `getExamQuestions`: link rows of one exam.  (The source additionally sorts
by the `order` column; no embedded claim depends on the ordering, so the sort is
elided.) -/
def getExamQuestions (db : DB) (examId : Nat) : List ExamQuestion :=
  db.examQuestions.filter fun l => l.examId == examId

/-- `updateExam(id, data)`: patch the row and return the patched row. -/
def updateExam (db : DB) (examId : Nat) (patch : Exam → Exam) :
    DB × Option Exam :=
  ({ db with exams := db.exams.map fun e => if e.id == examId then patch e else e },
   (findExamById db examId).map patch)

/-- `createParticipant`: insert with a generated id. -/
def createParticipant (db : DB) (examId studentId : Nat)
    (proctoringSessionId : Option Nat) (startTime : Option Nat)
    (status : String) : DB × ExamParticipant :=
  let p : ExamParticipant :=
    { id := db.nextId, examId := examId, studentId := studentId
      proctoringSessionId := proctoringSessionId, startTime := startTime
      status := status }
  ({ db with participants := db.participants ++ [p], nextId := db.nextId + 1 }, p)

/-- `findParticipant(examId, studentId)`. -/
def findParticipant (db : DB) (examId studentId : Nat) : Option ExamParticipant :=
  db.participants.find? fun p => p.examId == examId && p.studentId == studentId

/-- `findParticipantById`. -/
def findParticipantById (db : DB) (id : Nat) : Option ExamParticipant :=
  db.participants.find? fun p => p.id == id

/-- `updateParticipant(id, data)`. -/
def updateParticipant (db : DB) (id : Nat)
    (patch : ExamParticipant → ExamParticipant) : DB :=
  { db with participants :=
      db.participants.map fun p => if p.id == id then patch p else p }

/-- `listParticipants(examId)`. -/
def listParticipants (db : DB) (examId : Nat) : List ExamParticipant :=
  db.participants.filter fun p => p.examId == examId

/-- Lookup of an answer row by its `(participantId, questionId)` upsert key. -/
def findAnswerByKey (db : DB) (participantId questionId : Nat) : Option Answer :=
  db.answers.find? fun a =>
    a.participantId == participantId && a.questionId == questionId

/-- `upsertAnswer`: update in place when a row with the key exists (drizzle
`.set` skips absent fields, so an absent `answerText`/`answerFileUrl` keeps the
stored value), otherwise insert a fresh row. -/
def upsertAnswer (db : DB) (participantId questionId : Nat)
    (answerText answerFileUrl : Option String) (status : String) : DB × Answer :=
  match findAnswerByKey db participantId questionId with
  | some existing =>
      let updated : Answer :=
        { existing with
          answerText := match answerText with
            | some t => some t
            | none => existing.answerText
          answerFileUrl := match answerFileUrl with
            | some u => some u
            | none => existing.answerFileUrl
          status := status }
      ({ db with answers :=
           db.answers.map fun a => if a.id == existing.id then updated else a },
       updated)
  | none =>
      let created : Answer :=
        { id := db.nextId, participantId := participantId
          questionId := questionId, answerText := answerText
          answerFileUrl := answerFileUrl, status := status }
      ({ db with answers := db.answers ++ [created], nextId := db.nextId + 1 },
       created)

/-- `getParticipantAnswers(participantId)`. -/
def getParticipantAnswers (db : DB) (participantId : Nat) : List Answer :=
  db.answers.filter fun a => a.participantId == participantId

/-- `getStatistics(examId)`. -/
def getStatistics (db : DB) (examId : Nat) : Option ExamStatistic :=
  db.statistics.find? fun s => s.examId == examId

/-- Apply a partial update to an existing statistics row (drizzle `.set` skips
absent fields). -/
def applyStatPatch (p : StatPatch) (s : ExamStatistic) : ExamStatistic :=
  { s with
    avgScore := match p.avgScore with | some v => some v | none => s.avgScore
    maxScore := match p.maxScore with | some v => some v | none => s.maxScore
    minScore := match p.minScore with | some v => some v | none => s.minScore
    totalParticipants := p.totalParticipants.getD s.totalParticipants
    submittedCount := p.submittedCount.getD s.submittedCount
    scoredCount := p.scoredCount.getD s.scoredCount
    suspiciousCount := p.suspiciousCount.getD s.suspiciousCount }

/-- Build the inserted statistics row from a patch: absent score columns stay
NULL, absent counters take the schema default `0`. -/
def statFromPatch (examId : Nat) (p : StatPatch) : ExamStatistic :=
  { examId := examId
    avgScore := p.avgScore
    maxScore := p.maxScore
    minScore := p.minScore
    totalParticipants := p.totalParticipants.getD 0
    submittedCount := p.submittedCount.getD 0
    scoredCount := p.scoredCount.getD 0
    suspiciousCount := p.suspiciousCount.getD 0 }

/-- `upsertStatistics(examId, data)`. -/
def upsertStatistics (db : DB) (examId : Nat) (p : StatPatch) : DB :=
  match getStatistics db examId with
  | some _ =>
      { db with statistics :=
          db.statistics.map fun s =>
            if s.examId == examId then applyStatPatch p s else s }
  | none =>
      { db with statistics := db.statistics ++ [statFromPatch examId p] }

/-! ## Exam lifecycle (`exams.service.ts`) -/

/-- The `validTransitions` table of `updateExamStatus`.  An unknown current
status has no row (`validTransitions[exam.status]?.includes` is false). -/
def validTransitions : String → List String
  | "DRAFT" => ["ONGOING"]
  | "ONGOING" => ["FINISHED"]
  | "FINISHED" => ["PUBLISHED", "ONGOING"]
  | "PUBLISHED" => []
  | _ => []

/-- The all-zero `upsertStatistics` payload used when an exam starts. -/
def zeroStatsPatch : StatPatch :=
  { avgScore := some 0, maxScore := some 0, minScore := some 0
    totalParticipants := some 0, submittedCount := some 0
    scoredCount := some 0, suspiciousCount := some 0 }

/-- The row patch written by `updateExamStatus`: set the new status, stamp
`startTime` on a first start and `endTime` on a finish (`exam` is the row
fetched at the top of the service method). -/
def statusPatch (exam : Exam) (newStatus : String) (now : Nat) :
    Exam → Exam := fun e =>
  { e with
    status := newStatus
    startTime :=
      if newStatus == "ONGOING" && exam.startTime.isNone
      then some now else e.startTime
    endTime :=
      if newStatus == "FINISHED" then some now else e.endTime }

/-- The final `updateExam` write of `updateExamStatus`, returning the patched
row. -/
def applyStatusUpdate (db0 : DB) (examId : Nat) (exam : Exam)
    (newStatus : String) (now : Nat) : Except Err (DB × Exam) :=
  let r := updateExam db0 examId (statusPatch exam newStatus now)
  match r.2 with
  | some updated => .ok (r.1, updated)
  | none => .error (.notFound "Exam")

/-- `updateExamStatus(examId, teacherId, newStatus)`.  `now` stands for
`new Date()`.  Broadcasts are pure events with no bearing on stored state and
are elided. -/
def updateExamStatus (db : DB) (examId teacherId : Nat) (newStatus : String)
    (now : Nat) : Except Err (DB × Exam) :=
  match findExamByIdAndTeacher db examId teacherId with
  | none => .error (.notFound "Exam")
  | some exam =>
    if !(validTransitions exam.status).contains newStatus then
      .error (.badRequest
        ("Cannot transition from " ++ exam.status ++ " to " ++ newStatus))
    else
      if exam.status == "DRAFT" && newStatus == "ONGOING" then
        if (getExamQuestions db examId).length == 0 then
          .error (.badRequest "Cannot start exam without questions")
        else
          applyStatusUpdate (upsertStatistics db examId zeroStatsPatch)
            examId exam newStatus now
      else
        applyStatusUpdate db examId exam newStatus now

/-- `publishExam(examId, teacherId)`: the legacy DRAFT → ONGOING start path. -/
def publishExam (db : DB) (examId teacherId : Nat) (now : Nat) :
    Except Err (DB × Exam) :=
  match findExamByIdAndTeacher db examId teacherId with
  | none => .error (.notFound "Exam")
  | some exam =>
    if !(exam.status == "DRAFT") then
      .error (.badRequest "Exam is already published")
    else if (getExamQuestions db examId).length == 0 then
      .error (.badRequest "Cannot publish exam without questions")
    else
      let r := updateExam db examId fun e =>
        { e with status := "ONGOING"
                 startTime := match exam.startTime with
                   | some t => some t
                   | none => some now }
      let db1 := upsertStatistics r.1 examId zeroStatsPatch
      match r.2 with
      | some updated => .ok (db1, updated)
      | none => .error (.notFound "Exam")

/-! ## Participation (`exams.service.ts`, student actions) -/

/-- `joinExam(examId, studentId, studentName)`.  `proctoring` is the outcome of
the external `proctoringAIService.startSession` call (best effort: a failure is
swallowed and the student joins without a session).  Returns the participant
row and the `alreadyJoined` flag. -/
def joinExam (db : DB) (examId studentId : Nat) (now : Nat)
    (proctoring : Except String Nat) :
    Except Err (DB × ExamParticipant × Bool) :=
  match findExamById db examId with
  | none => .error (.notFound "Exam")
  | some exam =>
    if !(exam.status == "ONGOING") then
      .error (.badRequest "This exam is not available for joining")
    else
      match findParticipant db examId studentId with
      | some participant => .ok (db, participant, true)
      | none =>
        let proctoringSessionId : Option Nat :=
          if exam.enableProctoring then
            match proctoring with
            | .ok sid => some sid
            | .error _ => none
          else none
        let r := createParticipant db examId studentId proctoringSessionId
          (some now) "IN_PROGRESS"
        let stats := getStatistics r.1 examId
        let db2 := upsertStatistics r.1 examId
          { totalParticipants := some ((stats.map (·.totalParticipants)).getD 0 + 1) }
        .ok (db2, r.2, false)

/-- Body of a `submitAnswer` request (zod schema: optional text, optional file
url). -/
structure SubmitAnswerInput where
  questionId : Nat
  answerText : Option String := none
  answerFileUrl : Option String := none
deriving Repr, DecidableEq

/-- `submitAnswer(examId, studentId, input)`. -/
def submitAnswer (db : DB) (examId studentId : Nat) (input : SubmitAnswerInput) :
    Except Err (DB × Answer) :=
  match findParticipant db examId studentId with
  | none => .error (.forbidden "You have not joined this exam")
  | some participant =>
    if participant.submitTime.isSome then
      .error (.badRequest "You have already submitted the exam")
    else
      if !((getExamQuestions db examId).any fun l =>
            l.questionId == input.questionId) then
        .error (.notFound "Question not found in this exam")
      else
        .ok (upsertAnswer db participant.id input.questionId
          input.answerText input.answerFileUrl "PENDING")

/-- `batchSubmitAnswers(examId, studentId, input)`: upserts every entry.
Unlike `submitAnswer`, the source performs no membership check of the submitted
question ids against the exam's linked questions. -/
def batchSubmitAnswers (db : DB) (examId studentId : Nat)
    (inputs : List SubmitAnswerInput) : Except Err (DB × List Answer) :=
  match findParticipant db examId studentId with
  | none => .error (.forbidden "You have not joined this exam")
  | some participant =>
    if participant.submitTime.isSome then
      .error (.badRequest "You have already submitted the exam")
    else
      .ok (inputs.foldl
        (fun acc i =>
          let r := upsertAnswer acc.1 participant.id i.questionId
            i.answerText i.answerFileUrl "PENDING"
          (r.1, acc.2 ++ [r.2]))
        (db, []))

/-! ## Scoring pipeline (`scoring.service.ts`, AES-scorer variant)

The repository carries two copies of the scoring service; the embedding follows
the variant that delegates essay scoring to the external AES scorer.  (The
other copy differs only in using `toUpperCase` instead of `toLowerCase` for the
multiple-choice comparison — equivalent for equality — and in replacing the
essay delegate by its fixed placeholder.) -/

/-- Feedback payload returned by the AES scorer. -/
structure AesFeedback where
  overall : String
  strengths : List String := []
  improvements : List String := []
deriving Repr, DecidableEq

/-- Scoring result returned by the AES scorer. -/
structure AesResult where
  score : ℚ
  feedback : AesFeedback
deriving Repr, DecidableEq

/-- Oracle for the external AES scorer (`services/aes-scorer.service.ts`).
`scoreText student_answer answer_key rubric question` scores a text answer;
`scoreImage file_url answer_key rubric question` OCRs and scores an image
answer, where `.ok none` models a response without a `scoring_result`.
`.error` models a thrown exception. -/
structure AesScorer where
  scoreText : String → String → Option (List (String × ℚ)) → String →
    Except String AesResult
  scoreImage : String → String → Option (List (String × ℚ)) → String →
    Except String (Option AesResult)

/-- JavaScript truthiness of a nullable string: `null`, `undefined` and `""`
are falsy. -/
def strTruthy : Option String → Bool
  | some s => !(s == "")
  | none => false

/-- JavaScript `String.prototype.toLowerCase` (ASCII case folding), modelled
structurally over the character list so it evaluates in the kernel. -/
def jsToLowerCase (s : String) : String :=
  String.mk (s.data.map Char.toLower)

/-- JavaScript `String.prototype.trim`: strip leading and trailing
whitespace. -/
def jsTrim (s : String) : String :=
  String.mk
    (((s.data.dropWhile Char.isWhitespace).reverse.dropWhile
        Char.isWhitespace).reverse)

/-- The per-answer score computation inside `processScoring`'s loop: given the
answer row and its joined question, produce the `aiScore` / feedback pair that
the loop then writes back.  Mirrors the source branch for branch, including the
per-answer try/catch around the essay delegate (a delegate failure yields the
fixed placeholder score 50 flagged for manual review). -/
def scoreAnswer (scorer : AesScorer) (a : Answer) (q : Option Question) :
    Option ℚ × Option Feedback :=
  match q with
  | none => (none, none)
  | some question =>
    if question.qType == "PG" && strTruthy question.answerKey then
      let studentAnswer := jsTrim (jsToLowerCase (a.answerText.getD ""))
      let key := jsTrim (jsToLowerCase (question.answerKey.getD ""))
      let isCorrect := studentAnswer == key
      (some (if isCorrect then 100 else 0),
       some { overall := if isCorrect then "Jawaban benar" else "Jawaban salah" })
    else if question.qType == "ESSAY" then
      if strTruthy a.answerFileUrl && strTruthy question.answerKey then
        match scorer.scoreImage (a.answerFileUrl.getD "")
            (question.answerKey.getD "") question.rubric question.question with
        | .ok (some r) =>
            (some r.score,
             some { overall := r.feedback.overall
                    strengths := r.feedback.strengths
                    improvements := r.feedback.improvements })
        | .ok none =>
            (some 0,
             some { overall := "OCR gagal mengekstrak teks dari gambar" })
        | .error _ =>
            (some 50,
             some { overall := "Penilaian AI gagal, perlu review manual" })
      else if strTruthy a.answerText && strTruthy question.answerKey then
        match scorer.scoreText (a.answerText.getD "")
            (question.answerKey.getD "") question.rubric question.question with
        | .ok r =>
            (some r.score,
             some { overall := r.feedback.overall
                    strengths := r.feedback.strengths
                    improvements := r.feedback.improvements })
        | .error _ =>
            (some 50,
             some { overall := "Penilaian AI gagal, perlu review manual" })
      else
        (some 0,
         some { overall := "Tidak ada jawaban atau kunci jawaban tidak tersedia" })
    else
      (none, none)

/-- One iteration of `processScoring`'s answer loop: an already `SCORED` answer
is skipped (`continue`); otherwise the computed score is written back with
`finalScore` set equal to `aiScore` and status `SCORED`. -/
def processOneAnswer (scorer : AesScorer) (questions : List Question)
    (db : DB) (a : Answer) : DB :=
  if a.status == "SCORED" then db
  else
    let r := scoreAnswer scorer a (questions.find? fun q => q.id == a.questionId)
    { db with answers :=
        db.answers.map fun b =>
          if b.id == a.id then
            { b with aiScore := r.1, finalScore := r.1, feedback := r.2
                     status := "SCORED" }
          else b }

/-- The answer loop of `processScoring` for one participant: iterate over the
snapshot of the participant's answers, writing scores back one by one. -/
def processAnswers (scorer : AesScorer) (db : DB) (participantId : Nat) : DB :=
  (getParticipantAnswers db participantId).foldl
    (processOneAnswer scorer db.questions) db

/-- `recalculateParticipantScore(participantId)`: participants with no scored
answer are left untouched; otherwise the participant's score becomes the mean
of the non-null `finalScore`s (`a.finalScore || 0` on an already non-null score
is the score itself). -/
def recalculateParticipantScore (db : DB) (participantId : Nat) : DB :=
  let participantAnswers := getParticipantAnswers db participantId
  let scoredAnswers := participantAnswers.filter fun a => a.finalScore.isSome
  if scoredAnswers.length == 0 then db
  else
    let totalScore :=
      scoredAnswers.foldl (fun sum a => sum + a.finalScore.getD 0) (0 : ℚ)
    let averageScore := totalScore / (scoredAnswers.length : ℚ)
    updateParticipant db participantId fun p =>
      { p with score := some averageScore, status := "SCORED" }

/-- `Math.max(...scores)` over a non-empty list (`[]` is unreachable behind the
`scores.length === 0` guard). -/
def listMax : List ℚ → ℚ
  | [] => 0
  | x :: xs => xs.foldl max x

/-- `Math.min(...scores)` over a non-empty list. -/
def listMin : List ℚ → ℚ
  | [] => 0
  | x :: xs => xs.foldl min x

/-- The `scores` array of `updateExamStatistics` (and of `getExamScores`): the
non-null scores of the exam's live participants. -/
def examScores (db : DB) (examId : Nat) : List ℚ :=
  ((listParticipants db examId).filter fun p => p.score.isSome).map
    fun p => p.score.getD 0

/-- `updateExamStatistics(examId)`: full recompute over the live participant
set; a no-op when no participant has a non-null score. -/
def updateExamStatistics (db : DB) (examId : Nat) : DB :=
  let participants := listParticipants db examId
  let scores := examScores db examId
  if scores.length == 0 then db
  else
    upsertStatistics db examId
      { avgScore := some (scores.foldl (· + ·) 0 / (scores.length : ℚ))
        maxScore := some (listMax scores)
        minScore := some (listMin scores)
        totalParticipants := some participants.length
        submittedCount :=
          some (participants.filter fun p => p.submitTime.isSome).length
        scoredCount := some scores.length }

/-- An entry of the in-memory `scoringQueue` map, keyed by participant id. -/
structure ScoringJob where
  examId : Nat
  participantId : Nat
  status : String
  error : Option String := none
deriving Repr, DecidableEq

/-- `scoringQueue.get(participantId)`. -/
def queueGet (q : List ScoringJob) (participantId : Nat) : Option ScoringJob :=
  q.find? fun j => j.participantId == participantId

/-- `scoringQueue.set(job.participantId, job)`: replace the entry with that key
or append a new one. -/
def queueSet (q : List ScoringJob) (j : ScoringJob) : List ScoringJob :=
  if q.any fun k => k.participantId == j.participantId then
    q.map fun k => if k.participantId == j.participantId then j else k
  else q ++ [j]

/-- Process state shared by the scoring service: the database plus the
in-memory job map. -/
structure SystemState where
  db : DB
  queue : List ScoringJob := []
deriving Repr, DecidableEq

/-- One iteration of `processScoring`'s participant loop: a participant with
no queue entry is skipped (`if (!job) continue`); otherwise the participant's
answers are scored, the aggregate is recomputed, and the job completes `done`.
In the pure embedding the repository calls cannot throw, so the surrounding
`catch` (which would mark the job `failed`) is unreachable; a delegate failure
is already absorbed inside `scoreAnswer`. -/
def processOneParticipant (scorer : AesScorer) (acc : SystemState)
    (pid : Nat) : SystemState :=
  match queueGet acc.queue pid with
  | none => acc
  | some job =>
    let db1 := processAnswers scorer acc.db pid
    let db2 := recalculateParticipantScore db1 pid
    { db := db2, queue := queueSet acc.queue { job with status := "done" } }

/-- `processScoring(examId, participantIds)`: score every queued participant,
then recompute the exam statistics once at the end. -/
def processScoring (scorer : AesScorer) (st : SystemState) (examId : Nat)
    (participantIds : List Nat) : SystemState :=
  let st1 := participantIds.foldl (processOneParticipant scorer) st
  { st1 with db := updateExamStatistics st1.db examId }

/-- Body of a `triggerScoring` request. -/
structure TriggerScoringInput where
  participantIds : Option (List Nat) := none
deriving Repr, DecidableEq

/-- `triggerScoring(examId, teacherId, input)`.  The source launches
`processScoring` detached and returns at once; the embedding sequences it.
Returns the count of triggered participants. -/
def triggerScoring (scorer : AesScorer) (st : SystemState)
    (examId teacherId : Nat) (input : TriggerScoringInput) :
    Except Err (SystemState × Nat) :=
  match findExamByIdAndTeacher st.db examId teacherId with
  | none => .error (.notFound "Exam")
  | some _ =>
    let participants := listParticipants st.db examId
    let toScore0 := participants.filter fun p => p.submitTime.isSome
    let toScore : List ExamParticipant :=
      match input.participantIds with
      | some ids =>
          if ids.length > 0 then toScore0.filter fun p => ids.contains p.id
          else toScore0
      | none => toScore0
    let queue1 := toScore.foldl
      (fun q p => queueSet q
        { examId := examId, participantId := p.id, status := "pending" })
      st.queue
    let st1 := processScoring scorer { st with queue := queue1 } examId
      (toScore.map (·.id))
    .ok (st1, toScore.length)

/-- Response of `getScoringStatus`. -/
structure ScoringStatusCounts where
  pending : Nat
  processing : Nat
  done : Nat
  failed : Nat
deriving Repr, DecidableEq

/-- `getScoringStatus(examId, teacherId)`: live counts grouped by job state. -/
def getScoringStatus (st : SystemState) (examId teacherId : Nat) :
    Except Err ScoringStatusCounts :=
  match findExamByIdAndTeacher st.db examId teacherId with
  | none => .error (.notFound "Exam")
  | some _ =>
    let jobs := st.queue.filter fun j => j.examId == examId
    .ok { pending := (jobs.filter fun j => j.status == "pending").length
          processing := (jobs.filter fun j => j.status == "processing").length
          done := (jobs.filter fun j => j.status == "done").length
          failed := (jobs.filter fun j => j.status == "failed").length }

/-- `findAnswerById` (the `db.query.answers.findFirst` at the top of
`overrideScore`). -/
def findAnswerById (db : DB) (id : Nat) : Option Answer :=
  db.answers.find? fun a => a.id == id

/-- `overrideScore(answerId, teacherId, input)`: direct teacher correction.
The source reads `answer.participant.exam.teacherId` through non-null foreign
keys; the two `notFound` branches for a dangling participant or exam reference
are unreachable under referential integrity.  An absent `feedback` input keeps
the stored feedback (drizzle skips absent fields). -/
def overrideScore (db : DB) (answerId teacherId : Nat) (finalScore : ℚ)
    (feedback : Option Feedback) : Except Err (DB × Answer) :=
  match findAnswerById db answerId with
  | none => .error (.notFound "Answer")
  | some answer =>
    match findParticipantById db answer.participantId with
    | none => .error (.notFound "Participant")
    | some participant =>
      match findExamById db participant.examId with
      | none => .error (.notFound "Exam")
      | some exam =>
        if !(exam.teacherId == teacherId) then
          .error (.forbidden "You do not have access to this answer")
        else
          let updated : Answer :=
            { answer with
              finalScore := some finalScore
              feedback := match feedback with
                | some f => some f
                | none => answer.feedback
              status := "SCORED" }
          let newAnswers :=
            db.answers.map fun a => if a.id == answerId then updated else a
          let db1 := { db with answers := newAnswers }
          let db2 := recalculateParticipantScore db1 answer.participantId
          .ok (db2, updated)

/-! ## Concrete fixtures used by the closed theorems -/

/-- An AES scorer whose every call throws. -/
def failingScorer : AesScorer :=
  { scoreText := fun _ _ _ _ => .error "AES scorer unavailable"
    scoreImage := fun _ _ _ _ => .error "AES scorer unavailable" }

/-- A DRAFT exam owned by teacher 10. -/
def draftExam : Exam := { id := 1, teacherId := 10, status := "DRAFT" }

/-- Store holding `draftExam` with no linked questions. -/
def dbDraftNoQ : DB := { exams := [draftExam], nextId := 50 }

/-- Store holding `draftExam` with one linked multiple-choice question. -/
def dbDraftOneQ : DB :=
  { exams := [draftExam]
    questions := [{ id := 3, qType := "PG", answerKey := some "B" }]
    examQuestions := [{ examId := 1, questionId := 3 }]
    nextId := 50 }

/-- A FINISHED exam owned by teacher 10. -/
def finishedExam : Exam := { id := 1, teacherId := 10, status := "FINISHED" }

/-- Store holding `finishedExam`. -/
def dbFinished : DB := { exams := [finishedExam], nextId := 50 }

/-- Store with a finished exam of teacher 10, one joined participant and one
answer row, used to probe access by the foreign teacher 11. -/
def dbOtherTeacher : DB :=
  { exams := [finishedExam]
    participants := [{ id := 20, examId := 1, studentId := 30 }]
    answers := [{ id := 40, participantId := 20, questionId := 3 }]
    nextId := 50 }

/-- A stored multiple-choice answer with stray casing and whitespace. -/
def pgAnswer : Answer :=
  { id := 40, participantId := 20, questionId := 3, answerText := some "  b " }

/-- The multiple-choice question with answer key "B". -/
def pgQuestion : Question := { id := 3, qType := "PG", answerKey := some "B" }

/-- Store for aggregate recomputation: participant 20 has one scored and one
unscored answer, participant 21 has only an unscored answer. -/
def dbScored : DB :=
  { participants := [{ id := 20, examId := 1, studentId := 30 },
                     { id := 21, examId := 1, studentId := 31 }]
    answers := [{ id := 40, participantId := 20, questionId := 3,
                  finalScore := some 100, status := "SCORED" },
                { id := 41, participantId := 20, questionId := 4 },
                { id := 42, participantId := 21, questionId := 3 }]
    nextId := 50 }

/-- Store for the exam-statistics recompute: participant 20 submitted and is
scored 80, participant 21 joined but is unscored; the statistics row carries a
prior `suspiciousCount` of 7. -/
def dbStats : DB :=
  { participants := [{ id := 20, examId := 1, studentId := 30,
                       submitTime := some 9, score := some 80 },
                     { id := 21, examId := 1, studentId := 31 }]
    statistics := [{ examId := 1, suspiciousCount := 7 }]
    nextId := 50 }

/-- A pending essay answer submitted as text. -/
def essayAnswer : Answer :=
  { id := 41, participantId := 20, questionId := 4,
    answerText := some "jawaban siswa" }

/-- An essay question with an answer key. -/
def essayQuestion : Question :=
  { id := 4, qType := "ESSAY", answerKey := some "kunci jawaban" }

/-- Store with the pending essay answer of participant 20. -/
def dbEssay : DB :=
  { questions := [essayQuestion]
    participants := [{ id := 20, examId := 1, studentId := 30,
                       submitTime := some 9 }]
    answers := [essayAnswer]
    nextId := 50 }

/-- Scoring state for `dbEssay` with participant 20's job queued. -/
def stEssay : SystemState :=
  { db := dbEssay
    queue := [{ examId := 1, participantId := 20, status := "pending" }] }

/-- Whether a service call succeeded. -/
def exceptIsOk {ε α : Type} : Except ε α → Bool
  | .ok _ => true
  | .error _ => false

/-- The success value of a service call, when there is one. -/
def exceptValue {ε α : Type} : Except ε α → Option α
  | .ok a => some a
  | .error _ => none

/-- An ONGOING exam with proctoring disabled, owned by teacher 10. -/
def ongoingExam : Exam := { id := 1, teacherId := 10, status := "ONGOING" }

/-- Store holding only `ongoingExam`, before any student joined. -/
def dbOngoing : DB := { exams := [ongoingExam], nextId := 50 }

/-- Store with an ONGOING exam of teacher 10 whose single linked question is 3;
question 7 exists in the question bank but is not linked.  Student 30 has
joined (participant 20, one stored answer for question 3); student 31 has
already submitted (participant 21). -/
def dbSubmit : DB :=
  { exams := [{ id := 1, teacherId := 10, status := "ONGOING" }]
    questions := [{ id := 3, qType := "PG", answerKey := some "B" },
                  { id := 7, qType := "PG", answerKey := some "C" }]
    examQuestions := [{ examId := 1, questionId := 3 }]
    participants := [{ id := 20, examId := 1, studentId := 30 },
                     { id := 21, examId := 1, studentId := 31,
                       submitTime := some 9 }]
    answers := [{ id := 40, participantId := 20, questionId := 3,
                  answerText := some "A" }]
    nextId := 50 }

/-! ## Helper lemmas -/

/-- `find?` over an update-in-place `map` whose patch preserves the search
predicate finds the patched row. -/
theorem find?_map_patch {α : Type} (p : α → Bool) (f : α → α) (l : List α)
    (hf : ∀ a, p a = true → p (f a) = true) :
    (l.map fun a => if p a then f a else a).find? p = (l.find? p).map f := by
  induction l with
  | nil => simp
  | cons a t ih =>
    by_cases hpa : p a = true
    · simp [hpa, hf a hpa]
    · have hpa' : p a = false := by
        cases h : p a
        · rfl
        · exact absurd h hpa
      simp [hpa', ih]

/-- Replacing, by row id, the first row matched by an upsert key with a fresh
row that still matches the key makes `find?` on the key return the fresh row —
provided no other row shares the replaced row's id. -/
theorem find?_key_after_replace {α : Type} (p qk : α → Bool) (l : List α)
    (e u : α) (hfind : l.find? qk = some e) (hpe : p e = true)
    (huniq : ∀ a ∈ l, p a = true → a = e) (hu : qk u = true) :
    (l.map fun a => if p a then u else a).find? qk = some u := by
  induction l with
  | nil => simp at hfind
  | cons a t ih =>
    by_cases hqa : qk a = true
    · rw [List.find?_cons_of_pos _ hqa] at hfind
      have hea : e = a := by
        cases hfind
        rfl
      subst hea
      simp [hpe, hu]
    · have hqa' : ¬ (qk a = true) := hqa
      rw [List.find?_cons_of_neg _ hqa'] at hfind
      by_cases hpa : p a = true
      · have : a = e := huniq a (List.mem_cons_self a t) hpa
        subst this
        exact absurd (List.find?_some hfind) hqa
      · have hpa' : p a = false := by
          cases h : p a
          · rfl
          · exact absurd h hpa
        simp only [List.map_cons, hpa', Bool.false_eq_true, if_false]
        rw [List.find?_cons_of_neg _ hqa']
        exact ih hfind fun b hb hpb => huniq b (List.mem_cons_of_mem a hb) hpb

/-- Folding `+` of a projection over a list from an accumulator. -/
theorem foldl_add_map {α : Type} (g : α → ℚ) (l : List α) (c : ℚ) :
    l.foldl (fun s a => s + g a) c = c + (l.map g).sum := by
  induction l generalizing c with
  | nil => simp
  | cons a t ih => simp [ih (c + g a), add_assoc]

/-- Keeping the rows whose projection is `some` and reading the value equals
`filterMap` of the projection. -/
theorem filter_isSome_map_getD {α β : Type} (g : α → Option β) (d : β)
    (l : List α) :
    ((l.filter fun a => (g a).isSome).map fun a => (g a).getD d) =
      l.filterMap g := by
  induction l with
  | nil => rfl
  | cons a t ih => cases hga : g a <;> simp [List.filterMap_cons, hga, ih]

/-- `upsertStatistics` leaves every table except `statistics` unchanged. -/
theorem upsertStatistics_frame (db : DB) (e : Nat) (p : StatPatch) :
    (upsertStatistics db e p).exams = db.exams ∧
    (upsertStatistics db e p).questions = db.questions ∧
    (upsertStatistics db e p).examQuestions = db.examQuestions ∧
    (upsertStatistics db e p).participants = db.participants ∧
    (upsertStatistics db e p).answers = db.answers ∧
    (upsertStatistics db e p).nextId = db.nextId := by
  cases hs : getStatistics db e <;> simp [upsertStatistics, hs]

/-- Updating an existing statistics row. -/
theorem getStatistics_upsert_update (db : DB) (e : Nat) (p : StatPatch)
    (s : ExamStatistic) (h : getStatistics db e = some s) :
    getStatistics (upsertStatistics db e p) e = some (applyStatPatch p s) := by
  unfold upsertStatistics
  rw [h]
  unfold getStatistics at h ⊢
  dsimp only
  rw [find?_map_patch (fun s => s.examId == e) (applyStatPatch p) db.statistics
    (fun a ha => ha), h]
  rfl

/-- Inserting a missing statistics row. -/
theorem getStatistics_upsert_insert (db : DB) (e : Nat) (p : StatPatch)
    (h : getStatistics db e = none) :
    getStatistics (upsertStatistics db e p) e = some (statFromPatch e p) := by
  unfold upsertStatistics
  rw [h]
  unfold getStatistics at h ⊢
  simp [List.find?_append, h, statFromPatch]

/-- A statistics row found for an exam id carries that exam id. -/
theorem getStatistics_examId (db : DB) (e : Nat) (s : ExamStatistic)
    (h : getStatistics db e = some s) : s.examId = e := by
  have := List.find?_some h
  simpa using this

/-- An exam visible to its owner is found by the unauthenticated lookup too
(possibly as a different first match when ids collide). -/
theorem findExamById_isSome_of_owner (db : DB) (examId teacherId : Nat)
    (exam : Exam)
    (h : findExamByIdAndTeacher db examId teacherId = some exam) :
    ∃ e, findExamById db examId = some e := by
  have hmem := List.mem_of_find?_eq_some h
  have hpred := List.find?_some h
  have hex : ∃ x, x ∈ db.exams ∧ (x.id == examId) = true := by
    refine ⟨exam, hmem, ?_⟩
    have := (Bool.and_eq_true _ _).mp hpred
    exact this.1
  have h2 : (db.exams.find? fun e => e.id == examId).isSome :=
    List.find?_isSome.mpr hex
  exact Option.isSome_iff_exists.mp h2

/-- `getStatistics` only reads the `statistics` table. -/
theorem getStatistics_congr (db1 db2 : DB) (e : Nat)
    (h : db1.statistics = db2.statistics) :
    getStatistics db1 e = getStatistics db2 e := by
  unfold getStatistics
  rw [h]

/-- Characterisation of the successful final write of a status transition. -/
theorem applyStatusUpdate_ok (db0 : DB) (examId : Nat) (exam e0 : Exam)
    (newStatus : String) (now : Nat)
    (h : findExamById db0 examId = some e0) :
    ∃ db' ex, applyStatusUpdate db0 examId exam newStatus now = .ok (db', ex) ∧
      ex.status = newStatus ∧ findExamById db' examId = some ex ∧
      db'.statistics = db0.statistics := by
  unfold applyStatusUpdate updateExam
  rw [h]
  dsimp only
  refine ⟨_, _, rfl, rfl, ?_, rfl⟩
  unfold findExamById at h ⊢
  dsimp only
  rw [find?_map_patch (fun e => e.id == examId) (statusPatch exam newStatus now)
    db0.exams (fun a ha => ha), h]
  rfl

/-- Zero-initialising the statistics row (the DRAFT → ONGOING side effect)
yields the all-zero row whether it updates or inserts. -/
theorem getStatistics_upsert_zero (db : DB) (e : Nat) :
    getStatistics (upsertStatistics db e zeroStatsPatch) e =
      some { examId := e, avgScore := some 0, maxScore := some 0,
             minScore := some 0, totalParticipants := 0, submittedCount := 0,
             scoredCount := 0, suspiciousCount := 0 } := by
  cases hs : getStatistics db e with
  | none =>
      rw [getStatistics_upsert_insert db e _ hs]
      rfl
  | some s =>
      rw [getStatistics_upsert_update db e _ s hs]
      have hid := getStatistics_examId db e s hs
      rw [show applyStatPatch zeroStatsPatch s =
        { examId := s.examId, avgScore := some 0, maxScore := some 0,
          minScore := some 0, totalParticipants := 0, submittedCount := 0,
          scoredCount := 0, suspiciousCount := 0 } from rfl, hid]

/-! ## Claim theorems -/

/-- C1 counterexample: the pair (DRAFT, ONGOING) is in the allowed-transition
table, yet on an exam with zero linked questions `updateExamStatus` fails with
`BadRequest` instead of updating the status. -/
theorem updateExamStatus_allowed_pair_may_fail :
    (validTransitions "DRAFT").contains "ONGOING" = true ∧
    updateExamStatus dbDraftNoQ 1 10 "ONGOING" 0 =
      .error (.badRequest "Cannot start exam without questions") := by
  exact ⟨by decide, rfl⟩

/-- C1 (amended): for an exam visible to the caller, `updateExamStatus` fails
with `BadRequest` whenever (current status, target status) is not in the
allowed-transition table DRAFT→\{ONGOING\}, ONGOING→\{FINISHED\},
FINISHED→\{PUBLISHED, ONGOING\}, PUBLISHED→\{\}; when the pair is allowed —
except for a DRAFT→ONGOING transition of an exam with zero linked questions,
which also fails `BadRequest` — the exam's status is updated to the target
status. -/
theorem updateExamStatus_transition_table
    (db : DB) (examId teacherId now : Nat) (newStatus : String) (exam : Exam)
    (hfound : findExamByIdAndTeacher db examId teacherId = some exam) :
    ((validTransitions exam.status).contains newStatus = false →
      updateExamStatus db examId teacherId newStatus now =
        .error (.badRequest
          ("Cannot transition from " ++ exam.status ++ " to " ++ newStatus))) ∧
    ((validTransitions exam.status).contains newStatus = true →
      (exam.status = "DRAFT" → newStatus = "ONGOING" →
        getExamQuestions db examId ≠ []) →
      ∃ db' ex,
        updateExamStatus db examId teacherId newStatus now = .ok (db', ex) ∧
        ex.status = newStatus ∧ findExamById db' examId = some ex) := by
  constructor
  · intro hno
    unfold updateExamStatus
    rw [hfound]
    dsimp only
    rw [hno]
    rfl
  · intro hyes hq
    unfold updateExamStatus
    rw [hfound]
    dsimp only
    rw [hyes]
    simp only [Bool.not_true, Bool.false_eq_true, if_false]
    by_cases hd : exam.status = "DRAFT" ∧ newStatus = "ONGOING"
    · obtain ⟨hd1, hd2⟩ := hd
      have hne := hq hd1 hd2
      have hlen : ¬ (getExamQuestions db examId).length = 0 := by
        intro hc
        exact hne (List.length_eq_zero.mp hc)
      have hb : (exam.status == "DRAFT" && newStatus == "ONGOING") = true := by
        rw [hd1, hd2]
        rfl
      have hlenb : ((getExamQuestions db examId).length == 0) = false := by
        rw [beq_eq_false_iff_ne]
        exact hlen
      simp only [hb, if_true, hlenb, Bool.false_eq_true, if_false]
      obtain ⟨e0, he0⟩ :=
        findExamById_isSome_of_owner db examId teacherId exam hfound
      have he0' :
          findExamById (upsertStatistics db examId zeroStatsPatch) examId =
            some e0 := by
        unfold findExamById at he0 ⊢
        rw [(upsertStatistics_frame db examId zeroStatsPatch).1]
        exact he0
      obtain ⟨db', ex, hok, hst, hfind, _⟩ :=
        applyStatusUpdate_ok _ examId exam e0 newStatus now he0'
      exact ⟨db', ex, hok, hst, hfind⟩
    · have hbool :
          (exam.status == "DRAFT" && newStatus == "ONGOING") = false := by
        cases hb1 : exam.status == "DRAFT" with
        | false => simp
        | true =>
          cases hb2 : newStatus == "ONGOING" with
          | false => simp [hb2]
          | true =>
            have h1 : exam.status = "DRAFT" := by simpa using hb1
            have h2 : newStatus = "ONGOING" := by simpa using hb2
            exact absurd ⟨h1, h2⟩ hd
      simp only [hbool, Bool.false_eq_true, if_false]
      obtain ⟨e0, he0⟩ :=
        findExamById_isSome_of_owner db examId teacherId exam hfound
      obtain ⟨db', ex, hok, hst, hfind, _⟩ :=
        applyStatusUpdate_ok db examId exam e0 newStatus now he0
      exact ⟨db', ex, hok, hst, hfind⟩

/-- C1 witness: on the concrete one-question DRAFT exam, the allowed
DRAFT→ONGOING transition succeeds with the status updated, and the disallowed
DRAFT→FINISHED transition fails with `BadRequest`. -/
theorem updateExamStatus_transition_table_witness :
    (∃ db' ex, updateExamStatus dbDraftOneQ 1 10 "ONGOING" 0 = .ok (db', ex) ∧
      ex.status = "ONGOING" ∧ findExamById db' 1 = some ex) ∧
    updateExamStatus dbDraftOneQ 1 10 "FINISHED" 0 =
      .error (.badRequest
        ("Cannot transition from " ++ draftExam.status ++ " to " ++ "FINISHED")) := by
  exact ⟨(updateExamStatus_transition_table dbDraftOneQ 1 10 0 "ONGOING"
      draftExam rfl).2 (by decide) (fun _ _ => by decide),
    (updateExamStatus_transition_table dbDraftOneQ 1 10 0 "FINISHED"
      draftExam rfl).1 (by decide)⟩

/-- C2: for an exam in DRAFT owned by the caller, a DRAFT→ONGOING transition
(via `updateExamStatus` and via the legacy `publishExam` start path) fails with
`BadRequest` when the exam has zero linked questions; with at least one linked
question it succeeds and initialises the exam's statistics row with every
counter and score zero. -/
theorem draft_to_ongoing_requires_questions
    (db : DB) (examId teacherId now : Nat) (exam : Exam)
    (hfound : findExamByIdAndTeacher db examId teacherId = some exam)
    (hdraft : exam.status = "DRAFT") :
    (getExamQuestions db examId = [] →
      updateExamStatus db examId teacherId "ONGOING" now =
        .error (.badRequest "Cannot start exam without questions") ∧
      publishExam db examId teacherId now =
        .error (.badRequest "Cannot publish exam without questions")) ∧
    (getExamQuestions db examId ≠ [] →
      (∃ db' ex,
        updateExamStatus db examId teacherId "ONGOING" now = .ok (db', ex) ∧
        getStatistics db' examId = some
          { examId := examId, avgScore := some 0, maxScore := some 0,
            minScore := some 0, totalParticipants := 0, submittedCount := 0,
            scoredCount := 0, suspiciousCount := 0 }) ∧
      (∃ db' ex,
        publishExam db examId teacherId now = .ok (db', ex) ∧
        getStatistics db' examId = some
          { examId := examId, avgScore := some 0, maxScore := some 0,
            minScore := some 0, totalParticipants := 0, submittedCount := 0,
            scoredCount := 0, suspiciousCount := 0 })) := by
  have hyes : (validTransitions exam.status).contains "ONGOING" = true := by
    rw [hdraft]
    decide
  have hb : (exam.status == "DRAFT" && ("ONGOING" : String) == "ONGOING") = true := by
    rw [hdraft]
    rfl
  have hnd : (!(exam.status == "DRAFT")) = false := by
    rw [hdraft]
    rfl
  constructor
  · intro h0
    have hlenb : ((getExamQuestions db examId).length == 0) = true := by
      rw [h0]
      rfl
    constructor
    · unfold updateExamStatus
      rw [hfound]
      dsimp only
      rw [hyes]
      simp only [Bool.not_true, Bool.false_eq_true, if_false, hb, if_true, hlenb]
    · unfold publishExam
      rw [hfound]
      dsimp only
      simp only [hnd, Bool.false_eq_true, if_false, hlenb, if_true]
  · intro hne
    have hlenb : ((getExamQuestions db examId).length == 0) = false := by
      rw [beq_eq_false_iff_ne]
      intro hc
      exact hne (List.length_eq_zero.mp hc)
    obtain ⟨e0, he0⟩ :=
      findExamById_isSome_of_owner db examId teacherId exam hfound
    constructor
    · unfold updateExamStatus
      rw [hfound]
      dsimp only
      rw [hyes]
      simp only [Bool.not_true, Bool.false_eq_true, if_false, hb, if_true,
        hlenb]
      have he0' :
          findExamById (upsertStatistics db examId zeroStatsPatch) examId =
            some e0 := by
        unfold findExamById at he0 ⊢
        rw [(upsertStatistics_frame db examId zeroStatsPatch).1]
        exact he0
      obtain ⟨db', ex, hok, hst, hfind, hstats⟩ :=
        applyStatusUpdate_ok _ examId exam e0 "ONGOING" now he0'
      refine ⟨db', ex, hok, ?_⟩
      rw [getStatistics_congr db' (upsertStatistics db examId zeroStatsPatch)
        examId hstats]
      exact getStatistics_upsert_zero db examId
    · unfold publishExam
      rw [hfound]
      dsimp only
      simp only [hnd, Bool.false_eq_true, if_false, hlenb, if_true]
      unfold updateExam
      rw [he0]
      dsimp only
      refine ⟨_, _, rfl, ?_⟩
      exact getStatistics_upsert_zero _ examId

/-- C2 witness: on the concrete fixtures, the zero-question DRAFT exam fails
to start and the one-question DRAFT exam starts with the statistics row
initialised to zeros. -/
theorem draft_to_ongoing_requires_questions_witness :
    (updateExamStatus dbDraftNoQ 1 10 "ONGOING" 0 =
      .error (.badRequest "Cannot start exam without questions")) ∧
    (∃ db' ex,
      updateExamStatus dbDraftOneQ 1 10 "ONGOING" 0 = .ok (db', ex) ∧
      getStatistics db' 1 = some
        { examId := 1, avgScore := some 0, maxScore := some 0,
          minScore := some 0, totalParticipants := 0, submittedCount := 0,
          scoredCount := 0, suspiciousCount := 0 }) := by
  refine ⟨((draft_to_ongoing_requires_questions dbDraftNoQ 1 10 0 draftExam
    rfl rfl).1 rfl).1, ?_⟩
  exact ((draft_to_ongoing_requires_questions dbDraftOneQ 1 10 0 draftExam
    rfl rfl).2 (by decide)).1

/-- C9: the persisted `exam_status` enum has only DRAFT, ONGOING and FINISHED,
while the service transition table additionally permits PUBLISHED from
FINISHED, and a successful FINISHED→PUBLISHED transition writes a status value
outside the persisted enum. -/
theorem published_status_outside_schema_enum :
    ("PUBLISHED" ∈ validTransitions "FINISHED" ∧
     "PUBLISHED" ∉ examStatusEnumValues) ∧
    ∀ (db : DB) (examId teacherId now : Nat) (exam : Exam),
      findExamByIdAndTeacher db examId teacherId = some exam →
      exam.status = "FINISHED" →
      ∃ db' ex,
        updateExamStatus db examId teacherId "PUBLISHED" now = .ok (db', ex) ∧
        ex.status = "PUBLISHED" ∧ ex.status ∉ examStatusEnumValues := by
  refine ⟨⟨by decide, by decide⟩, ?_⟩
  intro db examId teacherId now exam hfound hfin
  have hyes : (validTransitions exam.status).contains "PUBLISHED" = true := by
    rw [hfin]
    decide
  have hbool :
      (exam.status == "DRAFT" && ("PUBLISHED" : String) == "ONGOING") = false := by
    rw [hfin]
    rfl
  unfold updateExamStatus
  rw [hfound]
  dsimp only
  rw [hyes]
  simp only [Bool.not_true, Bool.false_eq_true, if_false, hbool]
  obtain ⟨e0, he0⟩ :=
    findExamById_isSome_of_owner db examId teacherId exam hfound
  obtain ⟨db', ex, hok, hst, _, _⟩ :=
    applyStatusUpdate_ok db examId exam e0 "PUBLISHED" now he0
  refine ⟨db', ex, hok, hst, ?_⟩
  rw [hst]
  decide

/-- C9 witness: publishing the concrete FINISHED exam succeeds and stores the
out-of-enum status. -/
theorem published_status_outside_schema_enum_witness :
    ∃ db' ex,
      updateExamStatus dbFinished 1 10 "PUBLISHED" 0 = .ok (db', ex) ∧
      ex.status = "PUBLISHED" ∧ ex.status ∉ examStatusEnumValues :=
  published_status_outside_schema_enum.2 dbFinished 1 10 0 finishedExam rfl rfl

/-- C6 counterexample: teacher 11 does not own exam 1, yet `overrideScore` on
the existing answer 40 fails with `Forbidden`, not `NotFound` — revealing the
answer's existence to a non-owner. -/
theorem overrideScore_nonowner_forbidden :
    findExamByIdAndTeacher dbOtherTeacher 1 11 = none ∧
    overrideScore dbOtherTeacher 40 11 85 none =
      .error (.forbidden "You do not have access to this answer") := ⟨rfl, rfl⟩

/-- C6 (amended): for a non-owner, the lifecycle transition, scoring trigger
and scoring status query fail with `NotFound`; `overrideScore` fails with
`NotFound` when the answer does not exist, but with `Forbidden` when the
answer exists and its exam belongs to another teacher. -/
theorem nonowner_operations_fail
    (db : DB) (queue : List ScoringJob) (scorer : AesScorer)
    (examId teacherId answerId now : Nat) (newStatus : String)
    (inp : TriggerScoringInput) (fs : ℚ) (fb : Option Feedback) :
    (findExamByIdAndTeacher db examId teacherId = none →
      updateExamStatus db examId teacherId newStatus now =
        .error (.notFound "Exam") ∧
      triggerScoring scorer { db := db, queue := queue } examId teacherId inp =
        .error (.notFound "Exam") ∧
      getScoringStatus { db := db, queue := queue } examId teacherId =
        .error (.notFound "Exam")) ∧
    (findAnswerById db answerId = none →
      overrideScore db answerId teacherId fs fb = .error (.notFound "Answer")) ∧
    (∀ answer participant exam,
      findAnswerById db answerId = some answer →
      findParticipantById db answer.participantId = some participant →
      findExamById db participant.examId = some exam →
      exam.teacherId ≠ teacherId →
      overrideScore db answerId teacherId fs fb =
        .error (.forbidden "You do not have access to this answer")) := by
  refine ⟨?_, ?_, ?_⟩
  · intro h
    refine ⟨?_, ?_, ?_⟩
    · unfold updateExamStatus
      rw [h]
    · unfold triggerScoring
      rw [show findExamByIdAndTeacher { db := db, queue := queue : SystemState }.db
        examId teacherId = none from h]
    · unfold getScoringStatus
      rw [show findExamByIdAndTeacher { db := db, queue := queue : SystemState }.db
        examId teacherId = none from h]
  · intro h
    unfold overrideScore
    rw [h]
  · intro answer participant exam ha hp he hne
    unfold overrideScore
    rw [ha]
    dsimp only
    rw [hp]
    dsimp only
    rw [he]
    dsimp only
    have hb : (exam.teacherId == teacherId) = false := beq_eq_false_iff_ne.mpr hne
    simp only [hb, Bool.not_false, if_true]

/-- C6 witness: the concrete non-owner teacher 11 gets `NotFound` from the
lifecycle and scoring operations, `NotFound` for a missing answer id, and
`Forbidden` for the existing answer 40. -/
theorem nonowner_operations_fail_witness :
    (updateExamStatus dbOtherTeacher 1 11 "ONGOING" 0 =
      .error (.notFound "Exam") ∧
     triggerScoring failingScorer { db := dbOtherTeacher, queue := [] } 1 11
       { participantIds := none } = .error (.notFound "Exam") ∧
     getScoringStatus { db := dbOtherTeacher, queue := [] } 1 11 =
       .error (.notFound "Exam")) ∧
    overrideScore dbOtherTeacher 99 11 85 none = .error (.notFound "Answer") ∧
    overrideScore dbOtherTeacher 40 11 85 none =
      .error (.forbidden "You do not have access to this answer") := by
  refine ⟨(nonowner_operations_fail dbOtherTeacher [] failingScorer 1 11 99 0
      "ONGOING" { participantIds := none } 85 none).1 rfl,
    (nonowner_operations_fail dbOtherTeacher [] failingScorer 1 11 99 0
      "ONGOING" { participantIds := none } 85 none).2.1 rfl,
    (nonowner_operations_fail dbOtherTeacher [] failingScorer 1 11 40 0
      "ONGOING" { participantIds := none } 85 none).2.2 _ _ _ rfl rfl rfl
      (by decide)⟩

/-- C5 counterexample: question 7 is not linked to exam 1, yet
`batchSubmitAnswers` succeeds (instead of failing `NotFound`) and stores an
answer row for the unlinked question. -/
theorem batchSubmitAnswers_skips_question_check :
    ((getExamQuestions dbSubmit 1).any fun l => l.questionId == 7) = false ∧
    exceptIsOk (batchSubmitAnswers dbSubmit 1 30
      [{ questionId := 7, answerText := some "x" }]) = true ∧
    (exceptValue (batchSubmitAnswers dbSubmit 1 30
        [{ questionId := 7, answerText := some "x" }])).map
      (fun r => (r.1.answers.filter fun a => a.questionId == 7).length) =
      some 1 := by
  exact ⟨rfl, rfl, rfl⟩

/-- C5 (amended): both submit paths fail `Forbidden` without a participant row
and `BadRequest` once the final submit timestamp is set; `submitAnswer` alone
rejects question ids not linked to the exam with `NotFound`, while
`batchSubmitAnswers` performs no such check; on the success path answers are
upserted keyed by (participant, question): an existing row is overwritten in
place (the answer count is unchanged) and a fresh key inserts exactly one new
row. -/
theorem submit_answer_upsert_semantics
    (db : DB) (examId studentId : Nat) (inp : SubmitAnswerInput)
    (inps : List SubmitAnswerInput) :
    (findParticipant db examId studentId = none →
      submitAnswer db examId studentId inp =
        .error (.forbidden "You have not joined this exam") ∧
      batchSubmitAnswers db examId studentId inps =
        .error (.forbidden "You have not joined this exam")) ∧
    (∀ p, findParticipant db examId studentId = some p →
      p.submitTime.isSome = true →
      submitAnswer db examId studentId inp =
        .error (.badRequest "You have already submitted the exam") ∧
      batchSubmitAnswers db examId studentId inps =
        .error (.badRequest "You have already submitted the exam")) ∧
    (∀ p, findParticipant db examId studentId = some p →
      p.submitTime = none →
      ((getExamQuestions db examId).any fun l =>
        l.questionId == inp.questionId) = false →
      submitAnswer db examId studentId inp =
        .error (.notFound "Question not found in this exam")) ∧
    (∀ pid qid t u st e, findAnswerByKey db pid qid = some e →
      (upsertAnswer db pid qid t u st).1.answers.length = db.answers.length ∧
      ((∀ a ∈ db.answers, a.id = e.id → a = e) →
        findAnswerByKey (upsertAnswer db pid qid t u st).1 pid qid =
          some (upsertAnswer db pid qid t u st).2)) ∧
    (∀ pid qid t u st, findAnswerByKey db pid qid = none →
      (upsertAnswer db pid qid t u st).1.answers.length =
        db.answers.length + 1 ∧
      findAnswerByKey (upsertAnswer db pid qid t u st).1 pid qid =
        some (upsertAnswer db pid qid t u st).2) ∧
    (∀ p, findParticipant db examId studentId = some p →
      p.submitTime = none →
      ((getExamQuestions db examId).any fun l =>
        l.questionId == inp.questionId) = true →
      submitAnswer db examId studentId inp =
        .ok (upsertAnswer db p.id inp.questionId inp.answerText
          inp.answerFileUrl "PENDING")) := by
  refine ⟨?_, ?_, ?_, ?_, ?_, ?_⟩
  · intro h
    constructor
    · unfold submitAnswer
      rw [h]
    · unfold batchSubmitAnswers
      rw [h]
  · intro p hp hsub
    constructor
    · unfold submitAnswer
      rw [hp]
      dsimp only
      simp only [hsub, if_true]
    · unfold batchSubmitAnswers
      rw [hp]
      dsimp only
      simp only [hsub, if_true]
  · intro p hp hsub hq
    unfold submitAnswer
    rw [hp]
    dsimp only
    simp only [hsub, Option.isSome_none, Bool.false_eq_true, if_false, hq,
      Bool.not_false, if_true]
  · intro pid qid t u st e he
    unfold upsertAnswer
    rw [he]
    dsimp only
    refine ⟨List.length_map _ _, ?_⟩
    intro huniq
    unfold findAnswerByKey at he ⊢
    dsimp only
    have hpe : (e.id == e.id) = true := by simp
    exact find?_key_after_replace (fun a => a.id == e.id)
      (fun a => a.participantId == pid && a.questionId == qid) db.answers e
      { e with
        answerText := match t with
          | some t => some t
          | none => e.answerText
        answerFileUrl := match u with
          | some v => some v
          | none => e.answerFileUrl
        status := st }
      he hpe (fun a ha hpa => huniq a ha (by simpa using hpa))
      (by
        have hb := List.find?_some he
        exact hb)
  · intro pid qid t u st he
    unfold upsertAnswer
    rw [he]
    dsimp only
    refine ⟨by simp, ?_⟩
    unfold findAnswerByKey at he ⊢
    dsimp only
    rw [List.find?_append, he]
    simp
  · intro p hp hsub hq
    unfold submitAnswer
    rw [hp]
    dsimp only
    simp only [hsub, Option.isSome_none, Bool.false_eq_true, if_false, hq,
      Bool.not_true, if_false]

/-- C5 witness: on the concrete store, a non-joined student is rejected
`Forbidden`, a student who already submitted gets `BadRequest`, `submitAnswer`
rejects the unlinked question 7 with `NotFound`, re-submitting the stored
answer for question 3 keeps the answer count at one, and a fresh key adds one
row. -/
theorem submit_answer_upsert_semantics_witness :
    (submitAnswer dbSubmit 1 99 { questionId := 3 } =
      .error (.forbidden "You have not joined this exam")) ∧
    (submitAnswer dbSubmit 1 31 { questionId := 3 } =
      .error (.badRequest "You have already submitted the exam")) ∧
    (submitAnswer dbSubmit 1 30 { questionId := 7 } =
      .error (.notFound "Question not found in this exam")) ∧
    ((upsertAnswer dbSubmit 20 3 (some "B") none "PENDING").1.answers.length =
      dbSubmit.answers.length ∧
     findAnswerByKey (upsertAnswer dbSubmit 20 3 (some "B") none "PENDING").1
        20 3 = some (upsertAnswer dbSubmit 20 3 (some "B") none "PENDING").2) ∧
    ((upsertAnswer dbSubmit 20 7 (some "x") none "PENDING").1.answers.length =
      dbSubmit.answers.length + 1) := by
  refine ⟨((submit_answer_upsert_semantics dbSubmit 1 99 { questionId := 3 }
      []).1 rfl).1, ?_, ?_, ?_, ?_⟩
  · exact ((submit_answer_upsert_semantics dbSubmit 1 31 { questionId := 3 }
      []).2.1 _ rfl rfl).1
  · exact (submit_answer_upsert_semantics dbSubmit 1 30 { questionId := 7 }
      []).2.2.1 _ rfl rfl rfl
  · refine ⟨((submit_answer_upsert_semantics dbSubmit 1 30 { questionId := 3 }
      []).2.2.2.1 20 3 (some "B") none "PENDING" _ rfl).1, ?_⟩
    exact ((submit_answer_upsert_semantics dbSubmit 1 30 { questionId := 3 }
      []).2.2.2.1 20 3 (some "B") none "PENDING" _ rfl).2 (by decide)
  · exact ((submit_answer_upsert_semantics dbSubmit 1 30 { questionId := 3 }
      []).2.2.2.2.1 20 7 (some "x") none "PENDING" rfl).1

/-- Incrementing the participant counter yields that counter, whether the
statistics row pre-existed or was inserted with schema defaults. -/
theorem upsert_totalParticipants (db0 : DB) (e n : Nat) :
    ((getStatistics (upsertStatistics db0 e
        { totalParticipants := some (n + 1) }) e).map
      fun s => s.totalParticipants).getD 0 = n + 1 := by
  cases hs : getStatistics db0 e with
  | none =>
      rw [getStatistics_upsert_insert db0 e _ hs]
      rfl
  | some s =>
      rw [getStatistics_upsert_update db0 e _ s hs]
      rfl

/-- A join by a student who already has a participant row returns that row
unchanged with the `alreadyJoined` flag and no store mutation. -/
theorem joinExam_already (db0 : DB) (examId studentId now : Nat)
    (pr : Except String Nat) (exam : Exam) (p : ExamParticipant)
    (hfound : findExamById db0 examId = some exam)
    (hongoing : exam.status = "ONGOING")
    (hp : findParticipant db0 examId studentId = some p) :
    joinExam db0 examId studentId now pr = .ok (db0, p, true) := by
  have hst : (!(exam.status == "ONGOING")) = false := by
    rw [hongoing]
    rfl
  unfold joinExam
  rw [hfound]
  dsimp only
  simp only [hst, Bool.false_eq_true, if_false]
  rw [hp]

/-- C7: joining an ONGOING exam twice with the same (examId, studentId)
returns the same participant row both times — the second call reports
`alreadyJoined` and leaves the store untouched — and increments the exam
statistics' `totalParticipants` counter exactly once, on the first call. -/
theorem join_idempotent
    (db : DB) (examId studentId now now2 : Nat) (pr pr2 : Except String Nat)
    (exam : Exam)
    (hfound : findExamById db examId = some exam)
    (hongoing : exam.status = "ONGOING")
    (hnew : findParticipant db examId studentId = none) :
    ∃ db1 p1,
      joinExam db examId studentId now pr = .ok (db1, p1, false) ∧
      joinExam db1 examId studentId now2 pr2 = .ok (db1, p1, true) ∧
      ((getStatistics db1 examId).map fun s => s.totalParticipants).getD 0 =
        ((getStatistics db examId).map fun s => s.totalParticipants).getD 0
          + 1 := by
  have hst : (!(exam.status == "ONGOING")) = false := by
    rw [hongoing]
    rfl
  unfold joinExam
  rw [hfound]
  dsimp only
  simp only [hst, Bool.false_eq_true, if_false]
  rw [hnew]
  unfold createParticipant
  dsimp only
  refine ⟨_, _, rfl, ?_, ?_⟩
  · refine joinExam_already _ examId studentId now2 pr2 exam _ ?_ hongoing ?_
    · unfold findExamById at hfound ⊢
      rw [(upsertStatistics_frame _ _ _).1]
      exact hfound
    · unfold findParticipant at hnew ⊢
      rw [(upsertStatistics_frame _ _ _).2.2.2.1]
      dsimp only
      rw [List.find?_append, hnew]
      simp
  · rw [upsert_totalParticipants]
    rfl

/-- C7 witness: on the concrete ONGOING exam, student 30 joins once (counter
reaches prior + 1) and the second join returns the same row flagged
`alreadyJoined`, even with the proctoring service down. -/
theorem join_idempotent_witness :
    ∃ db1 p1,
      joinExam dbOngoing 1 30 5 (.error "proctoring down") =
        .ok (db1, p1, false) ∧
      joinExam db1 1 30 6 (.error "proctoring down") = .ok (db1, p1, true) ∧
      ((getStatistics db1 1).map fun s => s.totalParticipants).getD 0 =
        ((getStatistics dbOngoing 1).map fun s => s.totalParticipants).getD 0
          + 1 :=
  join_idempotent dbOngoing 1 30 5 6 (.error "proctoring down")
    (.error "proctoring down") ongoingExam rfl rfl rfl

/-- `find?` by participant id after `updateParticipant` returns the patched
row, for any id-preserving patch. -/
theorem updateParticipant_find? (db : DB) (pid : Nat)
    (patch : ExamParticipant → ExamParticipant)
    (hid : ∀ p, (patch p).id = p.id) :
    (updateParticipant db pid patch).participants.find? (fun p => p.id == pid) =
      (db.participants.find? (fun p => p.id == pid)).map patch := by
  unfold updateParticipant
  dsimp only
  exact find?_map_patch (fun p => p.id == pid) patch db.participants
    (fun a ha => by
      show ((patch a).id == pid) = true
      rw [hid a]
      exact ha)

/-- C3: for a multiple-choice answer against a non-empty answer key, the
scoring pipeline computes exactly 100 when the submitted text equals the key
after case folding and trimming, 0 otherwise, independent of the external
scorer oracle. -/
theorem pg_scoring_normalized
    (scorer scorer2 : AesScorer) (a : Answer) (q : Question) (s k : String)
    (hq : q.qType = "PG") (hk : q.answerKey = some k) (hke : k ≠ "")
    (ht : a.answerText = some s) :
    scoreAnswer scorer a (some q) =
      (some (if jsTrim (jsToLowerCase s) == jsTrim (jsToLowerCase k)
             then (100 : ℚ) else 0),
       some { overall :=
                if jsTrim (jsToLowerCase s) == jsTrim (jsToLowerCase k)
                then "Jawaban benar" else "Jawaban salah" }) ∧
    scoreAnswer scorer a (some q) = scoreAnswer scorer2 a (some q) := by
  have hpg : (q.qType == "PG" && strTruthy (some k)) = true := by
    rw [hq]
    unfold strTruthy
    simp [hke]
  unfold scoreAnswer
  dsimp only
  simp only [hk, ht]
  simp only [hpg, if_true]
  exact ⟨rfl, trivial⟩

/-- C3 witness: the stored answer "  b " scores 100 against key "B" under the
failing scorer, by pure normalization. -/
theorem pg_scoring_normalized_witness :
    (scoreAnswer failingScorer pgAnswer (some pgQuestion) =
      (some (if jsTrim (jsToLowerCase "  b ") == jsTrim (jsToLowerCase "B")
             then (100 : ℚ) else 0),
       some { overall :=
                if jsTrim (jsToLowerCase "  b ") == jsTrim (jsToLowerCase "B")
                then "Jawaban benar" else "Jawaban salah" }) ∧
     scoreAnswer failingScorer pgAnswer (some pgQuestion) =
       scoreAnswer failingScorer pgAnswer (some pgQuestion)) ∧
    scoreAnswer failingScorer pgAnswer (some pgQuestion) =
      (some 100, some { overall := "Jawaban benar" }) := by
  refine ⟨pg_scoring_normalized failingScorer failingScorer pgAnswer
    pgQuestion "  b " "B" rfl rfl (by decide) rfl, ?_⟩
  decide

/-- C4: the aggregate recompute sets a participant's score to the arithmetic
mean of the non-null `finalScore`s of that participant's answers; a
participant with no scored answers leaves the whole store untouched. -/
theorem participant_mean_score (db : DB) (pid : Nat) :
    ((getParticipantAnswers db pid).filterMap (fun a => a.finalScore) = [] →
      recalculateParticipantScore db pid = db) ∧
    ((getParticipantAnswers db pid).filterMap (fun a => a.finalScore) ≠ [] →
      (recalculateParticipantScore db pid).participants.find?
          (fun p => p.id == pid) =
        (db.participants.find? (fun p => p.id == pid)).map (fun p =>
          { p with
            score := some
              (((getParticipantAnswers db pid).filterMap
                  (fun a => a.finalScore)).sum /
               ((((getParticipantAnswers db pid).filterMap
                  (fun a => a.finalScore)).length : ℚ)))
            status := "SCORED" }) ∧
      (recalculateParticipantScore db pid).answers = db.answers ∧
      (recalculateParticipantScore db pid).statistics = db.statistics ∧
      (recalculateParticipantScore db pid).exams = db.exams) := by
  have hmap := filter_isSome_map_getD (fun a : Answer => a.finalScore) 0
    (getParticipantAnswers db pid)
  have hlen :
      ((getParticipantAnswers db pid).filter
        fun a => a.finalScore.isSome).length =
      ((getParticipantAnswers db pid).filterMap
        fun a => a.finalScore).length := by
    rw [← hmap, List.length_map]
  constructor
  · intro h0
    unfold recalculateParticipantScore
    have hb : (((getParticipantAnswers db pid).filter
        fun a => a.finalScore.isSome).length == 0) = true := by
      rw [hlen, h0]
      rfl
    simp only [hb, if_true]
  · intro hne
    unfold recalculateParticipantScore
    have hlen0 : ¬ ((getParticipantAnswers db pid).filter
        fun a => a.finalScore.isSome).length = 0 := by
      rw [hlen]
      intro hc
      exact hne (List.length_eq_zero.mp hc)
    have hlenb : (((getParticipantAnswers db pid).filter
        fun a => a.finalScore.isSome).length == 0) = false := by
      rw [beq_eq_false_iff_ne]
      exact hlen0
    simp only [hlenb, Bool.false_eq_true, if_false]
    refine ⟨?_, rfl, rfl, rfl⟩
    rw [updateParticipant_find? db pid]
    case hid => exact fun p => rfl
    have havg :
        (((getParticipantAnswers db pid).filter
            fun a => a.finalScore.isSome).foldl
          (fun sum a => sum + a.finalScore.getD 0) 0) /
          ((((getParticipantAnswers db pid).filter
            fun a => a.finalScore.isSome).length : ℚ)) =
        (((getParticipantAnswers db pid).filterMap
            fun a => a.finalScore).sum /
         ((((getParticipantAnswers db pid).filterMap
            fun a => a.finalScore).length : ℚ))) := by
      rw [foldl_add_map (fun a : Answer => a.finalScore.getD 0)
        ((getParticipantAnswers db pid).filter fun a => a.finalScore.isSome) 0,
        hmap, hlen, zero_add]
    simp only [havg]

/-- C4 witness: participant 21 (no scored answer) leaves the store unchanged;
participant 20's score becomes the mean of its single scored answer. -/
theorem participant_mean_score_witness :
    (recalculateParticipantScore dbScored 21 = dbScored) ∧
    ((recalculateParticipantScore dbScored 20).participants.find?
        (fun p => p.id == 20) =
      (dbScored.participants.find? (fun p => p.id == 20)).map (fun p =>
        { p with
          score := some
            (((getParticipantAnswers dbScored 20).filterMap
                (fun a => a.finalScore)).sum /
             ((((getParticipantAnswers dbScored 20).filterMap
                (fun a => a.finalScore)).length : ℚ)))
          status := "SCORED" }) ∧
      (recalculateParticipantScore dbScored 20).answers = dbScored.answers ∧
      (recalculateParticipantScore dbScored 20).statistics =
        dbScored.statistics ∧
      (recalculateParticipantScore dbScored 20).exams = dbScored.exams) :=
  ⟨(participant_mean_score dbScored 21).1 rfl,
   (participant_mean_score dbScored 20).2 (by decide)⟩

/-- Folding `+` over rationals from an accumulator is the accumulator plus the
sum. -/
theorem foldl_add_sum (l : List ℚ) (c : ℚ) : l.foldl (· + ·) c = c + l.sum := by
  induction l generalizing c with
  | nil => simp
  | cons a t ih => simp [ih (c + a), add_assoc]

/-- C10: the per-exam statistics recompute leaves every other table — and, in
the statistics row, every field other than the six it writes (avg/max/min
score, total/submitted/scored counts) — unchanged; in particular
`suspiciousCount` is untouched, and when no participant has a non-null score
the whole store is returned unmodified. -/
theorem updateExamStatistics_writes
    (db : DB) (examId : Nat) :
    (examScores db examId = [] → updateExamStatistics db examId = db) ∧
    (∀ st, getStatistics db examId = some st →
      examScores db examId ≠ [] →
      (updateExamStatistics db examId).exams = db.exams ∧
      (updateExamStatistics db examId).questions = db.questions ∧
      (updateExamStatistics db examId).examQuestions = db.examQuestions ∧
      (updateExamStatistics db examId).participants = db.participants ∧
      (updateExamStatistics db examId).answers = db.answers ∧
      getStatistics (updateExamStatistics db examId) examId = some
        { st with
          avgScore := some ((examScores db examId).sum /
            ((examScores db examId).length : ℚ))
          maxScore := some (listMax (examScores db examId))
          minScore := some (listMin (examScores db examId))
          totalParticipants := (listParticipants db examId).length
          submittedCount := ((listParticipants db examId).filter
            fun p => p.submitTime.isSome).length
          scoredCount := (examScores db examId).length }) := by
  constructor
  · intro h0
    unfold updateExamStatistics
    have hb : ((examScores db examId).length == 0) = true := by
      rw [h0]
      rfl
    simp only [hb, if_true]
  · intro st hst hne
    have hlenb : ((examScores db examId).length == 0) = false := by
      rw [beq_eq_false_iff_ne]
      intro hc
      exact hne (List.length_eq_zero.mp hc)
    unfold updateExamStatistics
    simp only [hlenb, Bool.false_eq_true, if_false]
    refine ⟨(upsertStatistics_frame _ _ _).1, (upsertStatistics_frame _ _ _).2.1,
      (upsertStatistics_frame _ _ _).2.2.1, (upsertStatistics_frame _ _ _).2.2.2.1,
      (upsertStatistics_frame _ _ _).2.2.2.2.1, ?_⟩
    rw [getStatistics_upsert_update db examId _ st hst]
    have hsum : (examScores db examId).foldl (· + ·) 0 =
        (examScores db examId).sum := by
      rw [foldl_add_sum, zero_add]
    unfold applyStatPatch
    dsimp only
    rw [hsum]
    simp only [Option.getD_some, Option.getD_none]

/-- C10 witness: on the concrete store the recompute writes
avg = max = min = 80, totals 2/1/1, and keeps the prior `suspiciousCount` 7;
removing the score would leave the store untouched. -/
theorem updateExamStatistics_writes_witness :
    (updateExamStatistics { dbStats with participants := [] } 1 =
      { dbStats with participants := [] }) ∧
    ((updateExamStatistics dbStats 1).participants = dbStats.participants ∧
     getStatistics (updateExamStatistics dbStats 1) 1 = some
      { examId := 1, avgScore := some ((examScores dbStats 1).sum /
          ((examScores dbStats 1).length : ℚ)),
        maxScore := some (listMax (examScores dbStats 1)),
        minScore := some (listMin (examScores dbStats 1)),
        totalParticipants := (listParticipants dbStats 1).length,
        submittedCount := ((listParticipants dbStats 1).filter
          fun p => p.submitTime.isSome).length,
        scoredCount := (examScores dbStats 1).length,
        suspiciousCount := 7 }) :=
  ⟨(updateExamStatistics_writes { dbStats with participants := [] } 1).1 rfl,
   ((updateExamStatistics_writes dbStats 1).2
      { examId := 1, suspiciousCount := 7 } rfl (by decide)).2.2.2.1,
   ((updateExamStatistics_writes dbStats 1).2
      { examId := 1, suspiciousCount := 7 } rfl (by decide)).2.2.2.2.2⟩

/-- Membership in the job map after a `set`: either an old entry or the new
job. -/
theorem queueSet_mem (q : List ScoringJob) (j k : ScoringJob)
    (hk : k ∈ queueSet q j) : k ∈ q ∨ k = j := by
  unfold queueSet at hk
  by_cases h : (q.any fun x => x.participantId == j.participantId) = true
  · rw [if_pos h] at hk
    obtain ⟨x, hx, hxe⟩ := List.mem_map.mp hk
    by_cases hp : (x.participantId == j.participantId) = true
    · right
      rw [if_pos hp] at hxe
      exact hxe.symm
    · left
      rw [if_neg hp] at hxe
      rw [← hxe]
      exact hx
  · rw [if_neg h] at hk
    rcases List.mem_append.mp hk with h1 | h2
    · exact Or.inl h1
    · right
      simpa using h2

/-- Every job in the queue after `processScoring` is either a pre-existing
entry or has completed `done`. -/
theorem processScoring_queue_status (scorer : AesScorer) (st : SystemState)
    (examId : Nat) (pids : List Nat) :
    ∀ j ∈ (processScoring scorer st examId pids).queue,
      j ∈ st.queue ∨ j.status = "done" := by
  unfold processScoring
  dsimp only
  have key : ∀ (st0 : SystemState),
      ∀ j ∈ (pids.foldl (processOneParticipant scorer) st0).queue,
        j ∈ st0.queue ∨ j.status = "done" := by
    induction pids with
    | nil =>
        intro st0 j hj
        exact Or.inl hj
    | cons pid rest ih =>
        intro st0 j hj
        rw [List.foldl_cons] at hj
        rcases ih (processOneParticipant scorer st0 pid) j hj with hmem | hdone
        · unfold processOneParticipant at hmem
          cases hq : queueGet st0.queue pid with
          | none =>
              rw [hq] at hmem
              exact Or.inl hmem
          | some job =>
              rw [hq] at hmem
              dsimp only at hmem
              rcases queueSet_mem _ _ _ hmem with h1 | h2
              · exact Or.inl h1
              · right
                rw [h2]
        · exact Or.inr hdone
  exact key st

/-- C8: an essay answer whose delegate call to the external AES scorer throws
(text scoring, or OCR-then-score for file submissions) is caught per answer
and receives the fixed placeholder score 50 flagged for manual review; the
write-back stores that score as `finalScore` with status `SCORED`; and
`processScoring` never marks a job `failed` — queued jobs complete `done`. -/
theorem essay_ai_failure_fallback (scorer : AesScorer) :
    (∀ (a : Answer) (q : Question) (k t msg : String),
      q.qType = "ESSAY" → q.answerKey = some k → k ≠ "" →
      a.answerFileUrl = none → a.answerText = some t → t ≠ "" →
      scorer.scoreText t k q.rubric q.question = .error msg →
      scoreAnswer scorer a (some q) =
        (some 50,
         some { overall := "Penilaian AI gagal, perlu review manual" })) ∧
    (∀ (a : Answer) (q : Question) (k f msg : String),
      q.qType = "ESSAY" → q.answerKey = some k → k ≠ "" →
      a.answerFileUrl = some f → f ≠ "" →
      scorer.scoreImage f k q.rubric q.question = .error msg →
      scoreAnswer scorer a (some q) =
        (some 50,
         some { overall := "Penilaian AI gagal, perlu review manual" })) ∧
    (∀ (db : DB) (a : Answer) (q : Question),
      a.status ≠ "SCORED" →
      db.questions.find? (fun qq => qq.id == a.questionId) = some q →
      (processOneAnswer scorer db.questions db a).answers.find?
          (fun b => b.id == a.id) =
        (db.answers.find? (fun b => b.id == a.id)).map (fun b =>
          { b with
            aiScore := (scoreAnswer scorer a (some q)).1
            finalScore := (scoreAnswer scorer a (some q)).1
            feedback := (scoreAnswer scorer a (some q)).2
            status := "SCORED" })) ∧
    (∀ (st : SystemState) (examId : Nat) (pids : List Nat) (j : ScoringJob),
      (∀ j0 ∈ st.queue, j0.status ≠ "failed") →
      j ∈ (processScoring scorer st examId pids).queue →
      j.status ≠ "failed") := by
  refine ⟨?_, ?_, ?_, ?_⟩
  · intro a q k t msg hq hk hke hfile ht hte herr
    have hpg : (q.qType == "PG" && strTruthy (some k)) = false := by
      rw [hq]
      rfl
    have hes : (q.qType == "ESSAY") = true := by
      rw [hq]
      rfl
    unfold scoreAnswer
    dsimp only
    simp only [hk, ht, hfile]
    simp only [hpg, Bool.false_eq_true, if_false, hes, if_true]
    have hfb : (strTruthy (none : Option String) && strTruthy (some k)) =
        false := rfl
    have htb : (strTruthy (some t) && strTruthy (some k)) = true := by
      unfold strTruthy
      simp [hte, hke]
    simp only [hfb, Bool.false_eq_true, if_false, htb, if_true,
      Option.getD_some]
    rw [herr]
  · intro a q k f msg hq hk hke hfile hfe herr
    have hpg : (q.qType == "PG" && strTruthy (some k)) = false := by
      rw [hq]
      rfl
    have hes : (q.qType == "ESSAY") = true := by
      rw [hq]
      rfl
    unfold scoreAnswer
    dsimp only
    simp only [hk, hfile]
    simp only [hpg, Bool.false_eq_true, if_false, hes, if_true]
    have hfb : (strTruthy (some f) && strTruthy (some k)) = true := by
      unfold strTruthy
      simp [hfe, hke]
    simp only [hfb, if_true, Option.getD_some]
    rw [herr]
  · intro db a q hstatus hfind
    unfold processOneAnswer
    have hs : (a.status == "SCORED") = false := beq_eq_false_iff_ne.mpr hstatus
    simp only [hs, Bool.false_eq_true, if_false]
    rw [hfind]
    exact find?_map_patch (fun b => b.id == a.id)
      (fun b =>
        { b with
          aiScore := (scoreAnswer scorer a (some q)).1
          finalScore := (scoreAnswer scorer a (some q)).1
          feedback := (scoreAnswer scorer a (some q)).2
          status := "SCORED" })
      db.answers (fun b hb => hb)
  · intro st examId pids j hpre hj
    rcases processScoring_queue_status scorer st examId pids j hj with hm | hd
    · exact hpre j hm
    · rw [hd]
      intro hc
      exact absurd hc (by decide)

/-- C8 witness: with the AES scorer down, the concrete pending essay answer
gets the flagged placeholder 50, the write-back stores it `SCORED`, and the
queued job is never `failed`. -/
theorem essay_ai_failure_fallback_witness :
    (scoreAnswer failingScorer essayAnswer (some essayQuestion) =
      (some 50,
       some { overall := "Penilaian AI gagal, perlu review manual" })) ∧
    ((processOneAnswer failingScorer dbEssay.questions dbEssay
        essayAnswer).answers.find? (fun b => b.id == essayAnswer.id) =
      (dbEssay.answers.find? (fun b => b.id == essayAnswer.id)).map (fun b =>
        { b with
          aiScore :=
            (scoreAnswer failingScorer essayAnswer (some essayQuestion)).1
          finalScore :=
            (scoreAnswer failingScorer essayAnswer (some essayQuestion)).1
          feedback :=
            (scoreAnswer failingScorer essayAnswer (some essayQuestion)).2
          status := "SCORED" })) ∧
    ({ examId := 1, participantId := 20, status := "done" } :
      ScoringJob).status ≠ "failed" := by
  refine ⟨(essay_ai_failure_fallback failingScorer).1 essayAnswer essayQuestion
      "kunci jawaban" "jawaban siswa" "AES scorer unavailable" rfl rfl
      (by decide) rfl rfl (by decide) rfl,
    (essay_ai_failure_fallback failingScorer).2.2.1 dbEssay essayAnswer
      essayQuestion (by decide) rfl,
    (essay_ai_failure_fallback failingScorer).2.2.2 stEssay 1 [20]
      { examId := 1, participantId := 20, status := "done" } ?_ ?_⟩
  · intro j0 hj0
    have hj0e : j0 = { examId := 1, participantId := 20, status := "pending" } := by
      simpa [stEssay] using hj0
    rw [hj0e]
    decide
  · decide

end SahabatGuru
